import Mathlib

/-!
Shallow embedding of the eligibility-screener core from src/app.py:
the BMI calculator (calculate_bmi, lines 11-17) and the rule evaluator
(determine_eligibility, lines 19-64), together with the record that main
(lines 218-227) assembles before calling the evaluator.

Python conventions carried over explicitly:
- optional numeric inputs are Option values; Python truthiness of a number
  (None and 0 are falsy) is modelled by matching the Option and testing
  the value against 0;
- the status is the literal Python string, one of "eligible",
  "conditional", "ineligible";
- the social_support dict entry can hold either a Python bool (what main
  stores) or a string (what determine_eligibility compares against), so it
  is modelled as a sum; Python == between a bool and a str is False.
-/

/-- Value stored under the social_support key of the data dict.
main stores a bool (social_support == "Yes", app.py line 226) while
determine_eligibility compares the entry with the string "No / Unsure"
(app.py line 54). -/
inductive SupportVal where
  | bool (b : Bool)
  | str (s : String)
deriving DecidableEq

/-- Python equality test of a social_support value against a string:
a Python bool is never == to a str, two strs compare by content. -/
def SupportVal.eqStr (v : SupportVal) (s : String) : Bool :=
  match v with
  | .bool _ => false
  | .str t => t == s

/-- The applicant record handed to determine_eligibility, with the field
types main produces (app.py lines 218-227): age from a number_input that
may be empty, on_dialysis the radio string, gfr an optional float. -/
structure ApplicantData where
  age : Option Nat
  on_dialysis : String
  gfr : Option ℚ
  active_cancer : Bool
  active_infection : Bool
  substance_abuse : Bool
  heart_lung_disease : Bool
  social_support : SupportVal
deriving DecidableEq

/-- The nine explanation messages determine_eligibility can append, one
constructor per append site in app.py lines 26-62.  The two BMI
constructors carry the BMI value that the f-string interpolates. -/
inductive Msg where
  | cancer
  | infection
  | substanceAbuse
  | heartLung
  | bmiOver40 (b : ℚ)
  | bmiOver35 (b : ℚ)
  | age
  | socialSupport
  | gfr
deriving DecidableEq

/-- The message text of each constructor, exactly the strings appended in
app.py (with the BMI value interpolated where the f-string does). -/
def Msg.text : Msg → String
  | .cancer => "Active malignancy (cancer) is typically a contraindication. Generally, you must be cancer-free for a specific period (often 2-5 years) before being listed."
  | .infection => "Active systemic infections must be fully treated and resolved before transplantation can proceed."
  | .substanceAbuse => "Active substance abuse is a contraindication. Programs typically require a demonstrated period of sobriety/abstinence."
  | .heartLung => "Severe heart or lung disease requires a detailed clearance by a specialist to ensure you are healthy enough for surgery."
  | .bmiOver40 b => "Your calculated BMI is " ++ toString b ++ ". A BMI over 40 may delay listing. The team may work with you on a weight loss plan prior to surgery."
  | .bmiOver35 b => "Your calculated BMI is " ++ toString b ++ ". While eligible, a BMI over 35 carries higher surgical risks."
  | .age => "While there is no strict age limit, candidates over 75 undergo a more rigorous evaluation to ensure they can tolerate the surgery and medication."
  | .socialSupport => "Post-transplant care requires a dedicated support person. You will need to identify a support system to be listed."
  | .gfr => "Typically, patients are listed for transplant when GFR drops below 20. If your GFR is between 20-30, you can still be evaluated, but waiting time may not accrue yet."

/-- True exactly on the two BMI messages (rules 5 and 6). -/
def Msg.isBMI : Msg → Bool
  | .bmiOver40 _ => true
  | .bmiOver35 _ => true
  | _ => false

/-- True exactly on the three hard-stop messages (rules 1-3). -/
def Msg.isHardStop : Msg → Bool
  | .cancer => true
  | .infection => true
  | .substanceAbuse => true
  | _ => false

/-- Position of the message in the fixed rule order 1 to 9 of the spec. -/
def Msg.rank : Msg → Nat
  | .cancer => 1
  | .infection => 2
  | .substanceAbuse => 3
  | .heartLung => 4
  | .bmiOver40 _ => 5
  | .bmiOver35 _ => 6
  | .age => 7
  | .socialSupport => 8
  | .gfr => 9

/-- Round-half-to-even to the nearest integer, the tie rule of Python
round on a number that falls exactly between two integers. -/
def roundHalfEven (q : ℚ) : ℤ :=
  if Int.fract q < 1 / 2 then ⌊q⌋
  else if 1 / 2 < Int.fract q then ⌊q⌋ + 1
  else if ⌊q⌋ % 2 = 0 then ⌊q⌋ else ⌊q⌋ + 1

/-- Python round(x, 1): round to one decimal place, ties to even. -/
def pyRound1 (q : ℚ) : ℚ := (roundHalfEven (q * 10) : ℚ) / 10

/-- app.py lines 11-17.  Heights and the weight arrive as optional ints
(the caller at line 180 already replaces a missing height_in by 0); the
Python truthiness test on height_ft and weight_lbs is a test against
None and 0. -/
def calculate_bmi (height_ft : Option ℤ) (height_in : ℤ)
    (weight_lbs : Option ℤ) : Option ℚ :=
  match height_ft, weight_lbs with
  | some hf, some w =>
    if hf ≠ 0 ∧ w ≠ 0 then
      let total_inches : ℤ := hf * 12 + height_in
      if total_inches > 0 then
        some (pyRound1 ((w : ℚ) / ((total_inches : ℚ) ^ 2) * 703))
      else none
    else none
  | _, _ => none

/-- Python truthiness of an optional number: None and 0 are falsy. -/
def truthyQ : Option ℚ → Bool
  | some v => decide (v ≠ 0)
  | none => false

/-- Python truthiness of an optional natural: None and 0 are falsy. -/
def truthyN : Option ℕ → Bool
  | some v => decide (v ≠ 0)
  | none => false

/-- The numeric value of an optional rational; only read under a truthy
guard, where the option is some v with v the Python value. -/
def qval (x : Option ℚ) : ℚ := x.getD 0

/-- The numeric value of an optional natural; only read under a truthy
guard, where the option is some v with v the Python value. -/
def nval (x : Option ℕ) : ℕ := x.getD 0

/-- app.py lines 19-64: the eligibility rule evaluator.  status and
messages are threaded through shadowing lets, one per mutation site.  A
Python guard of the shape x and x > t (short-circuit truthiness, then the
comparison on the value) is rendered as truthy x ∧ val x > t. -/
def determine_eligibility (data : ApplicantData) (bmi : Option ℚ) :
    String × List Msg :=
  let status : String := "eligible"
  let messages : List Msg := []
  -- 1. HARD STOPS (Likely Ineligible)
  let (status, messages) :=
    if data.active_cancer then ("ineligible", messages ++ [Msg.cancer])
    else (status, messages)
  let (status, messages) :=
    if data.active_infection then ("ineligible", messages ++ [Msg.infection])
    else (status, messages)
  let (status, messages) :=
    if data.substance_abuse then ("ineligible", messages ++ [Msg.substanceAbuse])
    else (status, messages)
  -- 2. CONDITIONAL / WARNINGS
  if status ≠ "ineligible" then
    let (status, messages) :=
      if data.heart_lung_disease then ("conditional", messages ++ [Msg.heartLung])
      else (status, messages)
    let (status, messages) :=
      if truthyQ bmi then
        if qval bmi > 40 then ("conditional", messages ++ [Msg.bmiOver40 (qval bmi)])
        else if qval bmi > 35 then ("conditional", messages ++ [Msg.bmiOver35 (qval bmi)])
        else (status, messages)
      else (status, messages)
    let (status, messages) :=
      if truthyN data.age = true ∧ nval data.age > 75 then
        ("conditional", messages ++ [Msg.age])
      else (status, messages)
    let (status, messages) :=
      if data.social_support.eqStr "No / Unsure" then
        ("conditional", messages ++ [Msg.socialSupport])
      else (status, messages)
    -- Kidney Function Check
    let (status, messages) :=
      if data.on_dialysis == "No" then
        if truthyQ data.gfr = true ∧ qval data.gfr > 20 then
          ("conditional", messages ++ [Msg.gfr])
        else (status, messages)
      else (status, messages)
    (status, messages)
  else (status, messages)

/-- The data dict main compiles at app.py lines 218-227: social_support is
stored as the bool social == "Yes". -/
def mkData (age : Option Nat) (on_dialysis : String) (gfr : Option ℚ)
    (active_cancer active_infection substance_abuse heart_lung_disease : Bool)
    (social : String) : ApplicantData :=
  { age := age
    on_dialysis := on_dialysis
    gfr := gfr
    active_cancer := active_cancer
    active_infection := active_infection
    substance_abuse := substance_abuse
    heart_lung_disease := heart_lung_disease
    social_support := SupportVal.bool (social == "Yes") }

/-! ## Rule-firing predicates and the normal form of the evaluator

Each predicate below is the guard of one rule of determine_eligibility,
named after the rule it belongs to; statusSpec and messagesSpec restate
the evaluator as one conditional over these guards, which the key lemma
determine_eligibility_eq proves equal to the sequential code. -/

/-- Guard of rules 1-3: some hard-stop flag is set. -/
def anyHardStop (d : ApplicantData) : Bool :=
  d.active_cancer || d.active_infection || d.substance_abuse

/-- Guard of rule 4. -/
def heartLungFires (d : ApplicantData) : Bool := d.heart_lung_disease

/-- Guard of rule 5: BMI truthy and over 40. -/
def bmi40Fires (bmi : Option ℚ) : Bool :=
  truthyQ bmi && decide (qval bmi > 40)

/-- Guard of rule 6: BMI truthy, not over 40, over 35 (the elif branch). -/
def bmi35Fires (bmi : Option ℚ) : Bool :=
  truthyQ bmi && !decide (qval bmi > 40) && decide (qval bmi > 35)

/-- Guard of rule 7: age truthy and over 75. -/
def ageFires (d : ApplicantData) : Bool :=
  truthyN d.age && decide (nval d.age > 75)

/-- Guard of rule 8: the social_support entry compares equal to the
string tested at app.py line 54. -/
def socialFires (d : ApplicantData) : Bool :=
  d.social_support.eqStr "No / Unsure"

/-- Guard of rule 9: not on dialysis, GFR truthy and over 20. -/
def gfrFires (d : ApplicantData) : Bool :=
  d.on_dialysis == "No" && (truthyQ d.gfr && decide (qval d.gfr > 20))

/-- Some conditional rule (4-9) fires. -/
def anyConditional (d : ApplicantData) (bmi : Option ℚ) : Bool :=
  heartLungFires d || bmi40Fires bmi || bmi35Fires bmi || ageFires d ||
    socialFires d || gfrFires d

/-- The status determine_eligibility ends with, as one conditional. -/
def statusSpec (d : ApplicantData) (bmi : Option ℚ) : String :=
  if anyHardStop d then "ineligible"
  else if anyConditional d bmi then "conditional"
  else "eligible"

/-- Messages of the hard-stop phase, in rule order 1, 2, 3. -/
def hardStopMessages (d : ApplicantData) : List Msg :=
  (if d.active_cancer then [Msg.cancer] else []) ++
    (if d.active_infection then [Msg.infection] else []) ++
      (if d.substance_abuse then [Msg.substanceAbuse] else [])

/-- Messages of the BMI pair of rules 5 and 6: the first branch of the
if/elif that holds, so at most one element. -/
def bmiBlock (bmi : Option ℚ) : List Msg :=
  if truthyQ bmi then
    if qval bmi > 40 then [Msg.bmiOver40 (qval bmi)]
    else if qval bmi > 35 then [Msg.bmiOver35 (qval bmi)]
    else []
  else []

/-- Messages of the conditional phase, in rule order 4 to 9. -/
def condMessages (d : ApplicantData) (bmi : Option ℚ) : List Msg :=
  (if heartLungFires d then [Msg.heartLung] else []) ++
    bmiBlock bmi ++
      (if ageFires d then [Msg.age] else []) ++
        (if socialFires d then [Msg.socialSupport] else []) ++
          (if gfrFires d then [Msg.gfr] else [])

/-- The full message list: phase 1 in rule order, then, only when no hard
stop fired, phase 2 in rule order. -/
def messagesSpec (d : ApplicantData) (bmi : Option ℚ) : List Msg :=
  hardStopMessages d ++ (if anyHardStop d then [] else condMessages d bmi)

/-- When a hard stop fires, the evaluator returns ineligible with the
hard-stop messages only: phase 2 is skipped entirely. -/
theorem determine_eligibility_hard (d : ApplicantData) (bmi : Option ℚ)
    (h : anyHardStop d = true) :
    determine_eligibility d bmi = ("ineligible", hardStopMessages d) := by
  obtain ⟨age, dial, gfr, ac, ai, sa, hl, ss⟩ := d
  simp only [anyHardStop, Bool.or_eq_true] at h
  cases ac <;> cases ai <;> cases sa <;>
    simp_all [determine_eligibility, hardStopMessages]

/-- An if whose branches are pairs is the pair of the component ifs. -/
theorem ite_pair (c : Prop) [Decidable c] (x1 x2 : String) (y1 y2 : List Msg) :
    (if c then (x1, y1) else (x2, y2)) =
      ((if c then x1 else x2), (if c then y1 else y2)) := by
  split <;> rfl

/-- Pull a common append prefix out of an if with an unchanged else. -/
theorem ite_append_left (c : Prop) [Decidable c] (ms xs : List Msg) :
    (if c then ms ++ xs else ms) = ms ++ (if c then xs else []) := by
  split <;> simp

/-- Pull a common append prefix out of an if with appends in both arms. -/
theorem ite_append_both (c : Prop) [Decidable c] (ms xs ys : List Msg) :
    (if c then ms ++ xs else ms ++ ys) = ms ++ (if c then xs else ys) := by
  split <;> rfl

/-- Collapse a nested guard on a message block into a conjunction. -/
theorem ite_ite_nil (p q : Prop) [Decidable p] [Decidable q] (xs : List Msg) :
    (if p then (if q then xs else []) else []) = if p ∧ q then xs else [] := by
  by_cases hp : p <;> by_cases hq : q <;> simp [hp, hq]

/-- The strings eligible and ineligible differ (the phase-2 guard of the
evaluator holds whenever no hard stop fired). -/
theorem eligible_ne_ineligible : (("eligible" : String) = "ineligible") = False := by
  simp

set_option maxHeartbeats 1000000 in
/-- When no hard stop fires, the evaluator runs phase 2 and returns the
conditional-phase messages in rule order. -/
theorem determine_eligibility_soft (d : ApplicantData) (bmi : Option ℚ)
    (h : anyHardStop d = false) :
    determine_eligibility d bmi =
      ((if anyConditional d bmi then "conditional" else "eligible"),
        condMessages d bmi) := by
  obtain ⟨age, dial, gfr, ac, ai, sa, hl, ss⟩ := d
  simp only [anyHardStop, Bool.or_eq_false_iff] at h
  obtain ⟨⟨hac, hai⟩, hsa⟩ := h
  subst hac hai hsa
  simp only [determine_eligibility, ite_pair, ite_append_both, ite_append_left,
    ite_ite_nil, anyConditional, condMessages, bmiBlock, heartLungFires,
    bmi40Fires, bmi35Fires, ageFires, socialFires, gfrFires, Bool.or_eq_true,
    Bool.and_eq_true, Bool.not_eq_eq_eq_not, Bool.not_true, decide_eq_true_eq,
    decide_eq_false_iff_not, Bool.false_eq_true, if_false, ite_false, if_true,
    ite_true, eligible_ne_ineligible, not_false_eq_true, List.nil_append,
    List.append_assoc, ne_eq, beq_iff_eq]
  congr 1
  split_ifs <;> first | rfl | tauto

/-- Key normal-form lemma: the sequential evaluator of app.py lines 19-64
returns exactly the status and ordered message list given by the guards. -/
theorem determine_eligibility_eq (d : ApplicantData) (bmi : Option ℚ) :
    determine_eligibility d bmi = (statusSpec d bmi, messagesSpec d bmi) := by
  cases h : anyHardStop d with
  | true =>
    rw [determine_eligibility_hard d bmi h]
    simp [statusSpec, messagesSpec, h]
  | false =>
    rw [determine_eligibility_soft d bmi h]
    have hh : hardStopMessages d = [] := by
      obtain ⟨age, dial, gfr, ac, ai, sa, hl, ss⟩ := d
      simp only [anyHardStop, Bool.or_eq_false_iff] at h
      simp [hardStopMessages, h.1.1, h.1.2, h.2]
    simp [statusSpec, messagesSpec, h, hh]

/-! ## Helper lemmas for the claim theorems -/

/-- Membership in an if between two lists. -/
theorem mem_ite (c : Prop) [Decidable c] (m : Msg) (xs ys : List Msg) :
    (m ∈ if c then xs else ys) ↔ (c ∧ m ∈ xs) ∨ (¬c ∧ m ∈ ys) := by
  split <;> simp_all

/-- The hard-stop phase appends no message exactly when no flag is set. -/
theorem hardStopMessages_eq_nil (d : ApplicantData) :
    hardStopMessages d = [] ↔ anyHardStop d = false := by
  obtain ⟨age, dial, gfr, ac, ai, sa, hl, ss⟩ := d
  cases ac <;> cases ai <;> cases sa <;> simp [hardStopMessages, anyHardStop]

/-- When rule 5 fires the BMI block is the single over-40 message. -/
theorem bmiBlock_of_40 (bmi : Option ℚ) (h : bmi40Fires bmi = true) :
    bmiBlock bmi = [Msg.bmiOver40 (qval bmi)] := by
  simp only [bmi40Fires, Bool.and_eq_true, decide_eq_true_eq] at h
  simp [bmiBlock, h.1, h.2]

/-- When rule 6 fires the BMI block is the single over-35 message. -/
theorem bmiBlock_of_35 (bmi : Option ℚ) (h : bmi35Fires bmi = true) :
    bmiBlock bmi = [Msg.bmiOver35 (qval bmi)] := by
  simp only [bmi35Fires, Bool.and_eq_true, Bool.not_eq_true',
    decide_eq_true_eq, decide_eq_false_iff_not] at h
  obtain ⟨⟨ht, h40⟩, h35⟩ := h
  simp [bmiBlock, ht, h40, h35]

/-- When neither BMI rule fires the BMI block is empty. -/
theorem bmiBlock_of_none (bmi : Option ℚ) (h40 : bmi40Fires bmi = false)
    (h35 : bmi35Fires bmi = false) : bmiBlock bmi = [] := by
  simp only [bmi40Fires, bmi35Fires, Bool.and_eq_false_iff,
    Bool.not_eq_false', decide_eq_true_eq, decide_eq_false_iff_not]
    at h40 h35
  unfold bmiBlock
  rcases h40 with ht | h40
  · simp [ht]
  · rcases h35 with h35 | h35
    · rcases h35 with ht | hn40
      · simp [ht]
      · simp_all
    · split_ifs <;> simp_all

/-- The BMI pair appends no message exactly when neither rule 5 nor 6
fires. -/
theorem bmiBlock_eq_nil (bmi : Option ℚ) :
    bmiBlock bmi = [] ↔ (bmi40Fires bmi = false ∧ bmi35Fires bmi = false) := by
  constructor
  · intro h
    constructor
    · by_contra hc
      rw [Bool.not_eq_false] at hc
      rw [bmiBlock_of_40 bmi hc] at h
      exact List.cons_ne_nil _ _ h
    · by_contra hc
      rw [Bool.not_eq_false] at hc
      rw [bmiBlock_of_35 bmi hc] at h
      exact List.cons_ne_nil _ _ h
  · intro h
    exact bmiBlock_of_none bmi h.1 h.2

/-- The conditional phase appends no message exactly when no conditional
rule fires. -/
theorem condMessages_eq_nil (d : ApplicantData) (bmi : Option ℚ) :
    condMessages d bmi = [] ↔ anyConditional d bmi = false := by
  cases h4 : heartLungFires d <;> cases h40 : bmi40Fires bmi <;>
    cases h35 : bmi35Fires bmi <;> cases h7 : ageFires d <;>
      cases h8 : socialFires d <;> cases h9 : gfrFires d <;>
        simp [condMessages, anyConditional, h4, h40, h35, h7, h8, h9,
          bmiBlock_of_none, bmiBlock_of_40, bmiBlock_of_35]

/-- An if between a singleton and nil is a sublist of the singleton. -/
theorem ite_singleton_sublist (c : Prop) [Decidable c] (x : Msg) :
    List.Sublist (if c then [x] else []) [x] := by
  split
  · exact List.Sublist.refl _
  · exact List.nil_sublist _

/-- The BMI pair block is a sublist of the two BMI messages in order. -/
theorem bmiBlock_sublist (bmi : Option ℚ) :
    List.Sublist (bmiBlock bmi)
      [Msg.bmiOver40 (qval bmi), Msg.bmiOver35 (qval bmi)] := by
  unfold bmiBlock
  split_ifs
  · exact List.Sublist.cons₂ _ (List.nil_sublist _)
  · exact List.Sublist.cons _ (List.Sublist.refl _)
  · exact List.nil_sublist _
  · exact List.nil_sublist _

/-- The nine possible messages listed in rule order have strictly
increasing ranks. -/
theorem masterList_pairwise (qb : ℚ) :
    List.Pairwise (fun m1 m2 => m1.rank < m2.rank)
      [Msg.cancer, Msg.infection, Msg.substanceAbuse, Msg.heartLung,
        Msg.bmiOver40 qb, Msg.bmiOver35 qb, Msg.age, Msg.socialSupport,
        Msg.gfr] := by
  simp [List.pairwise_cons, Msg.rank]

/-- The message list is always a sublist of the nine messages in rule
order. -/
theorem messagesSpec_sublist (d : ApplicantData) (bmi : Option ℚ) :
    List.Sublist (messagesSpec d bmi)
      [Msg.cancer, Msg.infection, Msg.substanceAbuse, Msg.heartLung,
        Msg.bmiOver40 (qval bmi), Msg.bmiOver35 (qval bmi), Msg.age,
        Msg.socialSupport, Msg.gfr] := by
  have h1 : List.Sublist (hardStopMessages d)
      ([Msg.cancer] ++ [Msg.infection] ++ [Msg.substanceAbuse]) := by
    unfold hardStopMessages
    exact ((ite_singleton_sublist _ _).append
      (ite_singleton_sublist _ _)).append (ite_singleton_sublist _ _)
  have h2 : List.Sublist (if anyHardStop d then [] else condMessages d bmi)
      ([Msg.heartLung] ++
        [Msg.bmiOver40 (qval bmi), Msg.bmiOver35 (qval bmi)] ++ [Msg.age] ++
          [Msg.socialSupport] ++ [Msg.gfr]) := by
    split
    · exact List.nil_sublist _
    · unfold condMessages
      exact ((((ite_singleton_sublist _ _).append (bmiBlock_sublist bmi)).append
        (ite_singleton_sublist _ _)).append
          (ite_singleton_sublist _ _)).append (ite_singleton_sublist _ _)
  have h3 := h1.append h2
  unfold messagesSpec
  simpa using h3

/-- The ranks of the returned messages strictly increase: rule order. -/
theorem messagesSpec_pairwise (d : ApplicantData) (bmi : Option ℚ) :
    List.Pairwise (fun m1 m2 => m1.rank < m2.rank) (messagesSpec d bmi) :=
  (masterList_pairwise (qval bmi)).sublist (messagesSpec_sublist d bmi)

/-- Concrete BMI computation for the end-to-end example: 5 ft 10 in and
160 lbs give 160 / 70 ^ 2 * 703 which rounds to 23.0, not 22.9. -/
theorem calc_bmi_5_10_160 : calculate_bmi (some 5) 10 (some 160) = some 23 := by
  have harg : ((160 : ℤ) : ℚ) / (((5 * 12 + 10 : ℤ) : ℚ) ^ 2) * 703 * 10 =
      11248 / 49 := by norm_num
  simp only [calculate_bmi]
  rw [if_pos (by decide), if_pos (by decide), pyRound1, harg, roundHalfEven]
  norm_num [Int.fract]

/-- Every hard-stop message satisfies the hard-stop marker. -/
theorem hardStopMessages_all (d : ApplicantData) :
    (hardStopMessages d).all Msg.isHardStop = true := by
  obtain ⟨age, dial, gfr, ac, ai, sa, hl, ss⟩ := d
  cases ac <;> cases ai <;> cases sa <;> rfl

/-! ## Claim theorems -/

/-- The support-system rule is dead code whenever the social_support
entry holds a Python bool, as it does in every record main builds: a
bool is never == to the string "No / Unsure" tested at app.py line 54. -/
theorem social_rule_dead_on_bool (d : ApplicantData) (bmi : Option ℚ)
    (b : Bool) (hb : d.social_support = SupportVal.bool b) :
    Msg.socialSupport ∉ (determine_eligibility d bmi).2 := by
  rw [determine_eligibility_eq]
  have hs : socialFires d = false := by
    simp [socialFires, hb, SupportVal.eqStr]
  intro hmem
  simp [messagesSpec, hardStopMessages, condMessages, bmiBlock, mem_ite, hs]
    at hmem

/-- C1: code-bug evidence.  In the record main builds for a No / Unsure
support answer, social_support is the bool false (main, app.py line 226),
the hard-stop flags are false, yet the evaluator returns eligible with no
messages and in particular without the support-system message — rule 8
cannot fire because determine_eligibility (line 54) compares the bool
against the string "No / Unsure", which is always false in Python.  The
claim (with the spec) expects status conditional with the support-system
message. -/
theorem c1_social_rule_never_fires :
    (mkData (some 30) "Yes" none false false false false "No / Unsure").social_support =
        SupportVal.bool false ∧
    determine_eligibility
        (mkData (some 30) "Yes" none false false false false "No / Unsure") none =
      ("eligible", []) ∧
    Msg.socialSupport ∉ (determine_eligibility
        (mkData (some 30) "Yes" none false false false false "No / Unsure") none).2 :=
  ⟨rfl, by decide,
    social_rule_dead_on_bool
      (mkData (some 30) "Yes" none false false false false "No / Unsure") none
      false rfl⟩

/-- C2: whenever some hard-stop flag is set the evaluator returns
ineligible, the messages are exactly those of the set flags in the order
cancer, infection, substance abuse, and no conditional message appears,
whatever the other fields and the BMI are. -/
theorem c2_hard_stops_exact (d : ApplicantData) (bmi : Option ℚ)
    (h : d.active_cancer = true ∨ d.active_infection = true ∨
      d.substance_abuse = true) :
    determine_eligibility d bmi =
      ("ineligible",
        (if d.active_cancer then [Msg.cancer] else []) ++
          (if d.active_infection then [Msg.infection] else []) ++
            (if d.substance_abuse then [Msg.substanceAbuse] else [])) ∧
    ∀ m ∈ (determine_eligibility d bmi).2, m.isHardStop = true := by
  have hh : anyHardStop d = true := by
    rcases h with h | h | h <;> simp [anyHardStop, h]
  have he := determine_eligibility_hard d bmi hh
  constructor
  · rw [he]
    rfl
  · rw [he]
    intro m hm
    exact List.all_eq_true.mp (hardStopMessages_all d) m hm

/-- C2 witness: cancer and substance abuse set, infection clear, on a
record whose conditional triggers (BMI 42, heart-lung disease) would
otherwise fire. -/
theorem c2_hard_stops_exact_witness :
    determine_eligibility (mkData (some 50) "No" (some 25) true false true true "Yes")
        (some 42) = ("ineligible", [Msg.cancer, Msg.substanceAbuse]) := by
  have h := c2_hard_stops_exact
    (mkData (some 50) "No" (some 25) true false true true "Yes") (some 42)
    (Or.inl rfl)
  simpa using h.1

/-- C9 counterexample: the end-to-end example claims a BMI of about 22.9
for 5 ft 10 in and 160 lbs, but the code computes 160 / 70 ^ 2 * 703 =
22.955... and rounds it to one decimal as 23.0, not 22.9. -/
theorem c9_bmi_not_22_9 :
    ¬ calculate_bmi (some 5) 10 (some 160) = some (229 / 10) := by
  rw [calc_bmi_5_10_160]
  intro h
  rw [Option.some_inj] at h
  norm_num at h

/-- C9 amended: for the example input the computed BMI is 23.0 (22.955...
before rounding) and the screening of the example record with that BMI
returns eligible with no messages. -/
theorem c9_end_to_end_example :
    calculate_bmi (some 5) 10 (some 160) = some 23 ∧
    determine_eligibility (mkData (some 30) "No" (some 15) false false false false "Yes")
        (calculate_bmi (some 5) 10 (some 160)) = ("eligible", []) := by
  refine ⟨calc_bmi_5_10_160, ?_⟩
  rw [calc_bmi_5_10_160]
  decide

/-- C3: when no hard stop fires and a BMI value is present, the BMI
messages among the output are exactly one over-40 message carrying the
value when it exceeds 40, else one over-35 message carrying the value
when it exceeds 35, else none; so at most one BMI message ever appears. -/
theorem c3_bmi_rule_messages (d : ApplicantData) (b : ℚ)
    (h : anyHardStop d = false) :
    (determine_eligibility d (some b)).2.filter Msg.isBMI =
      (if b > 40 then [Msg.bmiOver40 b]
       else if b > 35 then [Msg.bmiOver35 b] else []) ∧
    ((determine_eligibility d (some b)).2.filter Msg.isBMI).length ≤ 1 := by
  have key : (determine_eligibility d (some b)).2.filter Msg.isBMI =
      (if b > 40 then [Msg.bmiOver40 b]
       else if b > 35 then [Msg.bmiOver35 b] else []) := by
    rw [determine_eligibility_soft d (some b) h]
    simp only [condMessages, List.filter_append]
    have f4 : (if heartLungFires d = true then [Msg.heartLung] else []).filter
        Msg.isBMI = [] := by split <;> rfl
    have f7 : (if ageFires d = true then [Msg.age] else []).filter
        Msg.isBMI = [] := by split <;> rfl
    have f8 : (if socialFires d = true then [Msg.socialSupport] else []).filter
        Msg.isBMI = [] := by split <;> rfl
    have f9 : (if gfrFires d = true then [Msg.gfr] else []).filter
        Msg.isBMI = [] := by split <;> rfl
    rw [f4, f7, f8, f9]
    simp only [List.nil_append, List.append_nil]
    by_cases hb0 : b = 0
    · subst hb0
      norm_num [bmiBlock, truthyQ]
    · have ht : truthyQ (some b) = true := by simp [truthyQ, hb0]
      have hq : qval (some b) = b := rfl
      simp only [bmiBlock, ht, if_true, hq]
      split_ifs <;> rfl
  refine ⟨key, ?_⟩
  rw [key]
  split_ifs <;> simp

/-- C3 witness: a record with no hard stop and BMI 41 gets exactly the
over-40 message carrying 41 among its messages. -/
theorem c3_bmi_rule_messages_witness :
    (determine_eligibility (mkData (some 50) "Yes" none false false false false "Yes")
        (some 41)).2.filter Msg.isBMI = [Msg.bmiOver40 41] := by
  have h := c3_bmi_rule_messages
    (mkData (some 50) "Yes" none false false false false "Yes") 41 (by rfl)
  rw [h.1]
  norm_num

/-- C4: with no hard stop set, the GFR message appears exactly when
on_dialysis is No and a GFR value above 20 is present, and in that case
the status is conditional; with on_dialysis = Yes, or a GFR of 20 or
less, the rule does not fire. -/
theorem c4_gfr_rule (d : ApplicantData) (bmi : Option ℚ)
    (h : anyHardStop d = false) :
    (Msg.gfr ∈ (determine_eligibility d bmi).2 ↔
      d.on_dialysis = "No" ∧ ∃ g, d.gfr = some g ∧ g > 20) ∧
    (d.on_dialysis = "No" ∧ (∃ g, d.gfr = some g ∧ g > 20) →
      (determine_eligibility d bmi).1 = "conditional") := by
  have hg : gfrFires d = true ↔
      (d.on_dialysis = "No" ∧ ∃ g, d.gfr = some g ∧ g > 20) := by
    simp only [gfrFires, Bool.and_eq_true, beq_iff_eq, decide_eq_true_eq]
    rcases hgf : d.gfr with _ | g
    · simp [truthyQ]
    · simp only [truthyQ, qval, Option.getD_some, decide_eq_true_eq, ne_eq]
      constructor
      · rintro ⟨hd, hne, hgt⟩
        exact ⟨hd, g, rfl, hgt⟩
      · rintro ⟨hd, g', hg', hgt⟩
        rw [Option.some_inj] at hg'
        subst hg'
        exact ⟨hd, ne_of_gt (by linarith), hgt⟩
  constructor
  · rw [determine_eligibility_soft d bmi h]
    have hmem : Msg.gfr ∈ condMessages d bmi ↔ gfrFires d = true := by
      simp [condMessages, mem_ite, bmiBlock]
    rw [show ((if anyConditional d bmi then "conditional" else "eligible"),
        condMessages d bmi).2 = condMessages d bmi from rfl, hmem, hg]
  · intro hc
    have hf : gfrFires d = true := hg.mpr hc
    have hany : anyConditional d bmi = true := by simp [anyConditional, hf]
    rw [determine_eligibility_soft d bmi h]
    simp [hany]

/-- C4 witness: on_dialysis No with GFR 25 and no hard stop gives the
GFR message and a conditional status. -/
theorem c4_gfr_rule_witness :
    Msg.gfr ∈ (determine_eligibility
        (mkData (some 50) "No" (some 25) false false false false "Yes") none).2 ∧
    (determine_eligibility
        (mkData (some 50) "No" (some 25) false false false false "Yes") none).1 =
      "conditional" := by
  have h := c4_gfr_rule
    (mkData (some 50) "No" (some 25) false false false false "Yes") none (by rfl)
  exact ⟨h.1.mpr ⟨rfl, 25, rfl, by norm_num⟩, h.2 ⟨rfl, 25, rfl, by norm_num⟩⟩

/-- C5: calculate_bmi returns None when height_feet or weight_pounds is
absent or zero or the total height in inches is not positive; otherwise
it returns weight / total_inches ^ 2 * 703 rounded to one decimal. -/
theorem c5_calculate_bmi (hf : Option ℤ) (hi : ℤ) (w : Option ℤ) :
    ((hf = none ∨ w = none) → calculate_bmi hf hi w = none) ∧
    ((hf = some 0 ∨ w = some 0) → calculate_bmi hf hi w = none) ∧
    (∀ f, hf = some f → f * 12 + hi ≤ 0 → calculate_bmi hf hi w = none) ∧
    (∀ f wt, hf = some f → w = some wt → f ≠ 0 → wt ≠ 0 → 0 < f * 12 + hi →
      calculate_bmi hf hi w =
        some (pyRound1 ((wt : ℚ) / (((f * 12 + hi : ℤ) : ℚ) ^ 2) * 703))) := by
  refine ⟨?_, ?_, ?_, ?_⟩
  · rintro (rfl | rfl)
    · rfl
    · rcases hf with _ | f <;> rfl
  · rintro (rfl | rfl)
    · rcases w with _ | wt
      · rfl
      · simp [calculate_bmi]
    · rcases hf with _ | f
      · rfl
      · simp [calculate_bmi]
  · rintro f rfl hle
    rcases w with _ | wt
    · rfl
    · by_cases hf0 : f = 0
      · simp [calculate_bmi, hf0]
      · by_cases hwt : wt = 0
        · simp [calculate_bmi, hwt]
        · simp [calculate_bmi, hf0, hwt, show ¬f * 12 + hi > 0 by omega]
  · rintro f wt rfl rfl hf0 hwt hpos
    simp [calculate_bmi, hf0, hwt, hpos]

/-- C5 witness: 5 ft 10 in and 160 lbs give the rounded imperial BMI of
160 over 70 squared times 703. -/
theorem c5_calculate_bmi_witness :
    calculate_bmi (some 5) 10 (some 160) =
      some (pyRound1 ((160 : ℚ) / (((5 * 12 + 10 : ℤ) : ℚ) ^ 2) * 703)) :=
  (c5_calculate_bmi (some 5) 10 (some 160)).2.2.2 5 160 rfl rfl
    (by decide) (by decide) (by decide)

/-- C6: the status is always one of the three values; any hard stop
forces ineligible; and without hard stops the status is eligible exactly
when no conditional rule fires, conditional when at least one fires — so
the status only ever moves up in severity during an evaluation. -/
theorem c6_status_classification (d : ApplicantData) (bmi : Option ℚ) :
    ((determine_eligibility d bmi).1 = "eligible" ∨
      (determine_eligibility d bmi).1 = "conditional" ∨
      (determine_eligibility d bmi).1 = "ineligible") ∧
    (anyHardStop d = true → (determine_eligibility d bmi).1 = "ineligible") ∧
    (anyHardStop d = false →
      (((determine_eligibility d bmi).1 = "eligible" ↔
          anyConditional d bmi = false) ∧
        (anyConditional d bmi = true →
          (determine_eligibility d bmi).1 = "conditional"))) := by
  rw [determine_eligibility_eq]
  cases hh : anyHardStop d <;> cases hc : anyConditional d bmi <;>
    simp [statusSpec, hh, hc]

/-- C6 witness: a fully benign record is eligible. -/
theorem c6_status_classification_witness :
    (determine_eligibility (mkData (some 30) "Yes" none false false false false "Yes")
        none).1 = "eligible" :=
  ((c6_status_classification
      (mkData (some 30) "Yes" none false false false false "Yes") none).2.2 rfl).1.mpr
    rfl

/-- C7: the returned messages are exactly the per-rule blocks
concatenated in rule order 1 to 9 — every applicable rule appends, the
only short-circuits being the hard-stop gate on phase 2 and the BMI
if/elif pair — and consequently the ranks of the returned messages are
strictly increasing. -/
theorem c7_message_order (d : ApplicantData) (bmi : Option ℚ) :
    (determine_eligibility d bmi).2 =
      (if d.active_cancer then [Msg.cancer] else []) ++
        (if d.active_infection then [Msg.infection] else []) ++
          (if d.substance_abuse then [Msg.substanceAbuse] else []) ++
            (if anyHardStop d then []
             else
               (if d.heart_lung_disease then [Msg.heartLung] else []) ++
                 bmiBlock bmi ++
                   (if ageFires d then [Msg.age] else []) ++
                     (if socialFires d then [Msg.socialSupport] else []) ++
                       (if gfrFires d then [Msg.gfr] else [])) ∧
    List.Pairwise (fun m1 m2 => m1.rank < m2.rank)
      (determine_eligibility d bmi).2 := by
  rw [determine_eligibility_eq]
  exact ⟨rfl, messagesSpec_pairwise d bmi⟩

/-- C8: the evaluator is total: it always returns a well-formed pair with
one of the three statuses, and an absent optional field (BMI, age, GFR)
only makes its rule silent — the corresponding message cannot appear. -/
theorem c8_total_and_skip (d : ApplicantData) (bmi : Option ℚ) :
    ((determine_eligibility d bmi).1 = "eligible" ∨
      (determine_eligibility d bmi).1 = "conditional" ∨
      (determine_eligibility d bmi).1 = "ineligible") ∧
    (bmi = none → ∀ q : ℚ,
      Msg.bmiOver40 q ∉ (determine_eligibility d bmi).2 ∧
      Msg.bmiOver35 q ∉ (determine_eligibility d bmi).2) ∧
    (d.age = none → Msg.age ∉ (determine_eligibility d bmi).2) ∧
    (d.gfr = none → Msg.gfr ∉ (determine_eligibility d bmi).2) := by
  rw [determine_eligibility_eq]
  refine ⟨?_, ?_, ?_, ?_⟩
  · cases hh : anyHardStop d <;> cases hc : anyConditional d bmi <;>
      simp [statusSpec, hh, hc]
  · rintro rfl q
    have hb : bmiBlock none = [] := rfl
    constructor <;>
      (intro hmem;
        simp [messagesSpec, hardStopMessages, condMessages, hb, mem_ite] at hmem)
  · intro ha
    have h7 : ageFires d = false := by simp [ageFires, ha, truthyN]
    intro hmem
    simp [messagesSpec, hardStopMessages, condMessages, mem_ite, h7, bmiBlock]
      at hmem
  · intro hg
    have h9 : gfrFires d = false := by simp [gfrFires, hg, truthyQ]
    intro hmem
    simp [messagesSpec, hardStopMessages, condMessages, mem_ite, h9, bmiBlock]
      at hmem

/-- C8 witness: with age, GFR and BMI all absent, the age, GFR and BMI
messages are absent from the output. -/
theorem c8_total_and_skip_witness :
    Msg.age ∉ (determine_eligibility
        (mkData none "Yes" none false false false false "Yes") none).2 ∧
    Msg.gfr ∉ (determine_eligibility
        (mkData none "Yes" none false false false false "Yes") none).2 ∧
    Msg.bmiOver40 41 ∉ (determine_eligibility
        (mkData none "Yes" none false false false false "Yes") none).2 := by
  have h := c8_total_and_skip
    (mkData none "Yes" none false false false false "Yes") none
  exact ⟨h.2.2.1 rfl, h.2.2.2 rfl, (h.2.1 rfl 41).1⟩

/-- C10: the status is eligible exactly when the message list is empty,
and the message list is non-empty exactly when the status is conditional
or ineligible: every rule that fires both upgrades the status and
appends a message. -/
theorem c10_eligible_iff_messages_empty (d : ApplicantData) (bmi : Option ℚ) :
    ((determine_eligibility d bmi).1 = "eligible" ↔
      (determine_eligibility d bmi).2 = []) ∧
    ((determine_eligibility d bmi).2 ≠ [] ↔
      ((determine_eligibility d bmi).1 = "conditional" ∨
        (determine_eligibility d bmi).1 = "ineligible")) := by
  rw [determine_eligibility_eq]
  have hm : messagesSpec d bmi = [] ↔
      (anyHardStop d = false ∧ anyConditional d bmi = false) := by
    cases hh : anyHardStop d
    · simp [messagesSpec, hh, (hardStopMessages_eq_nil d).mpr hh,
        condMessages_eq_nil]
    · simp only [messagesSpec, hh, if_true, List.append_nil]
      constructor
      · intro h0
        exact absurd ((hardStopMessages_eq_nil d).mp h0) (by simp [hh])
      · rintro ⟨hfalse, _⟩
        exact absurd hfalse (by decide)
  cases hh : anyHardStop d <;> cases hc : anyConditional d bmi <;>
    simp [statusSpec, hh, hc, hm]
